import Mathlib

/-!
Verification development for the WhatsApp session-lifecycle manager
(`src/backend/src/libs/wbot.ts`).

The file shallowly embeds the source module: the account record (`Whatsapp`
model rows, as the code reads and updates them), the in-memory session
registry (`sessions: Session[]`), the bounded-retry initializer
(`initializeWithRetry`), the event handlers installed by `initWbot`
(`qr`, `auth_failure`, `disconnected`, `ready`), the `reconnect` closure,
and the registry APIs `getWbot` / `removeWbot`.  Asynchronous effects are
made explicit: emitted socket notifications become a list, scheduled
reconnect timers become a list of delays, and the `initWbot` promise's
settlement state becomes `resolved` / `rejected` fields.  Fallible engine
calls (`initialize`, `destroy`, `syncUnreadMessages`) are passed in as
explicit outcomes.
-/

/-- Constant `MAX_RETRIES = 5` from the source. -/
def MAX_RETRIES : Nat := 5

/-- Constant `RECONNECT_INTERVAL = 5000` (milliseconds) from the source. -/
def RECONNECT_INTERVAL : Nat := 5000

/-- The persisted `Whatsapp` account record, restricted to the fields the
module reads or updates: `id`, `name`, serialized credentials `session`,
`status`, `qrcode`, and the `retries` counter. -/
structure WhatsappRec where
  id : Nat
  name : String
  session : String
  status : String
  qrcode : String
  retries : Nat
deriving DecidableEq, Repr

/-- A registry entry: `interface Session extends Client { id?: number }`.
The `handle` field stands for the object identity of the underlying
`Client` instance (two `Session` values model the same runtime object
exactly when their `handle`s agree); `id` is the optional account tag,
`undefined` before assignment. -/
structure Session where
  handle : Nat
  id : Option Nat := none
deriving DecidableEq, Repr

/-- Result of one `initializeWithRetry` call: how many times
`wbot.initialize()` was attempted, how many `RECONNECT_INTERVAL` waits were
suspended on, and the final outcome (`ok` on success, `error e` when the
last attempt's failure is re-thrown to the caller). -/
structure RetryResult where
  attempts : Nat
  waits : Nat
  outcome : Except String Unit
deriving Repr

/-- Function `initializeWithRetry(wbot, whatsapp, retries = 0)` from the source.
The engine's `wbot.initialize()` is abstracted as `connect`, mapping the
attempt index (the `retries` argument of that invocation) to its outcome.
On failure with `retries < maxRetries` the code waits `RECONNECT_INTERVAL`
and recurses with `retries + 1`; otherwise it re-throws the error. -/
def initializeWithRetry (connect : Nat → Except String Unit)
    (maxRetries : Nat) (retries : Nat) : RetryResult :=
  match connect retries with
  | Except.ok _ => { attempts := 1, waits := 0, outcome := Except.ok () }
  | Except.error e =>
    if h : retries < maxRetries then
      let r := initializeWithRetry connect maxRetries (retries + 1)
      { attempts := r.attempts + 1, waits := r.waits + 1, outcome := r.outcome }
    else
      { attempts := 1, waits := 0, outcome := Except.error e }
termination_by maxRetries - retries
decreasing_by omega

/-- Function `destroyClient(wbot)`: awaits `wbot.destroy()` inside a try/catch that
logs and swallows any error, so the call itself never throws.  The
underlying `destroy()` outcome is passed in explicitly. -/
def destroyClient (destroyResult : Except String Unit) : Except String Unit :=
  match destroyResult with
  | Except.ok _ => Except.ok ()
  | Except.error _ => Except.ok ()

/-- Number of registry entries tagged with a given account id. -/
def countId (sessions : List Session) (whatsappId : Nat) : Nat :=
  sessions.countP (fun s => s.id == some whatsappId)

/-- Expression `sessions.findIndex(s => s.id === whatsappId)` from the source, as an
optional index (`none` plays JavaScript's `-1`). -/
def findSessionIdx (sessions : List Session) (whatsappId : Nat) : Option Nat :=
  sessions.findIdx? (fun s => s.id == some whatsappId)

/-- Function `getWbot(whatsappId)`: `findIndex` then either throw
`AppError("ERR_WAPP_NOT_INITIALIZED")` or return `sessions[sessionIndex]`;
the index/access pair is rendered as `find?` of the same predicate. -/
def getWbot (sessions : List Session) (whatsappId : Nat) :
    Except String Session :=
  match sessions.find? (fun s => s.id == some whatsappId) with
  | none => Except.error "ERR_WAPP_NOT_INITIALIZED"
  | some s => Except.ok s

/-- Function `removeWbot(whatsappId)`: inside a try/catch that logs and swallows, it
finds the entry; if present it awaits `destroyClient` (itself non-throwing)
and `splice`s the entry out; if absent it does nothing.  Returns the
updated registry; the `Except` layer records that no error escapes. -/
def removeWbot (destroyResult : Except String Unit)
    (sessions : List Session) (whatsappId : Nat) :
    Except String (List Session) :=
  match findSessionIdx sessions whatsappId with
  | none => Except.ok sessions
  | some i =>
    match destroyClient destroyResult with
    | Except.ok _ => Except.ok (sessions.eraseIdx i)
    | Except.error _ => Except.ok sessions

/-- One `io.emit("whatsappSession", {action, session})` notification; the
`session` field is the account snapshot at emit time. -/
structure WNotification where
  action : String
  session : WhatsappRec
deriving DecidableEq, Repr

/-- The state one `initWbot(whatsapp)` call acts on: the account record it
mutates via `whatsapp.update`, the module-level `sessions` registry, the
closure's `wbot` handle, the notifications emitted so far, the settlement
state of the returned promise (`resolved`: value passed to `resolve`;
`rejected`: error passed to `reject`), and the delays of the reconnect
timers set with `setTimeout(reconnect, ...)` so far. -/
structure WbotState where
  whatsapp : WhatsappRec
  sessions : List Session
  wbot : Session
  emits : List WNotification
  resolved : Option Session
  rejected : Option String
  scheduled : List Nat
deriving DecidableEq, Repr

/-- The registration step shared by the `qr` and `ready` handlers:
`findIndex` on the account id; when absent (`-1`), set `wbot.id` and push
the handle.  Returns the updated registry and `wbot`. -/
def registerIfAbsent (sessions : List Session) (wbot : Session)
    (whatsappId : Nat) : List Session × Session :=
  match findSessionIdx sessions whatsappId with
  | none =>
    let wbot := { wbot with id := some whatsappId }
    (sessions ++ [wbot], wbot)
  | some _ => (sessions, wbot)

/-- The `qr` event handler: renders the code (console side effect, not
modelled), updates the account to `{qrcode: qr, status: "qrcode",
retries: 0}`, registers the handle if absent, and emits one
`whatsappSession` update. -/
def onQr (st : WbotState) (qr : String) : WbotState :=
  let w := { st.whatsapp with qrcode := qr, status := "qrcode", retries := 0 }
  let (sessions, wbot) := registerIfAbsent st.sessions st.wbot w.id
  { st with
    whatsapp := w
    sessions := sessions
    wbot := wbot
    emits := st.emits ++ [{ action := "update", session := w }] }

/-- The `auth_failure` event handler: when `whatsapp.retries > 1`, first
updates `{session: "", retries: 0}`; then reads `retry = whatsapp.retries`
and updates `{status: "DISCONNECTED", retries: retry + 1}`; emits one
update notification and schedules `reconnect` after `RECONNECT_INTERVAL`. -/
def onAuthFailure (st : WbotState) : WbotState :=
  let w0 :=
    if st.whatsapp.retries > 1 then
      { st.whatsapp with session := "", retries := 0 }
    else
      st.whatsapp
  let retry := w0.retries
  let w := { w0 with status := "DISCONNECTED", retries := retry + 1 }
  { st with
    whatsapp := w
    emits := st.emits ++ [{ action := "update", session := w }]
    scheduled := st.scheduled ++ [RECONNECT_INTERVAL] }

/-- The `disconnected` event handler: updates
`{status: "DISCONNECTED", qrcode: ""}`, emits one update notification and
schedules `reconnect` after `RECONNECT_INTERVAL`. -/
def onDisconnected (st : WbotState) : WbotState :=
  let w := { st.whatsapp with status := "DISCONNECTED", qrcode := "" }
  { st with
    whatsapp := w
    emits := st.emits ++ [{ action := "update", session := w }]
    scheduled := st.scheduled ++ [RECONNECT_INTERVAL] }

/-- The `ready` event handler: updates `{status: "CONNECTED", qrcode: "",
retries: 0}`, emits one update notification, registers the handle if
absent, sends presence (engine side effect, not modelled), awaits
`syncUnreadMessages(wbot)` and finally calls `resolve(wbot)`.
`syncThrows` is the outcome of the sync: when it throws, the async handler
aborts before `resolve`, the rejection of the handler itself being
unobserved (no one awaits an event handler). -/
def onReady (syncThrows : Bool) (st : WbotState) : WbotState :=
  let w := { st.whatsapp with status := "CONNECTED", qrcode := "", retries := 0 }
  let (sessions, wbot) := registerIfAbsent st.sessions st.wbot w.id
  let st := { st with
    whatsapp := w
    sessions := sessions
    wbot := wbot
    emits := st.emits ++ [{ action := "update", session := w }] }
  if syncThrows then st else { st with resolved := some st.wbot }

/-- Outcome of one run of the `reconnect` closure: which handle object was
destroyed, which handle object `initializeWithRetry` was invoked on, the
state after the run, whether any further reconnect was scheduled by the
run, and whether anything escaped to a caller. -/
structure ReconnectResult where
  destroyedHandle : Nat
  connectHandle : Nat
  finalState : WbotState
  scheduled : List Nat
  raised : Bool
deriving Repr

/-- The `reconnect` closure: inside a try/catch, awaits
`destroyClient(wbot)` then `initializeWithRetry(wbot, whatsapp)` — both on
the closure's own `wbot`.  On failure of the retry sequence the catch
block logs, updates `{status: "DISCONNECTED", qrcode: ""}` and emits one
update notification; it schedules nothing and re-throws nothing. -/
def reconnect (connect : Nat → Except String Unit) (st : WbotState) :
    ReconnectResult :=
  let r := initializeWithRetry connect MAX_RETRIES 0
  { destroyedHandle := st.wbot.handle
    connectHandle := st.wbot.handle
    finalState :=
      match r.outcome with
      | Except.ok _ => st
      | Except.error _ =>
        let w := { st.whatsapp with status := "DISCONNECTED", qrcode := "" }
        { st with
          whatsapp := w
          emits := st.emits ++ [{ action := "update", session := w }] }
    scheduled := []
    raised := false }

/-- The engine events whose handlers touch the registry. -/
inductive WEvent where
  | qr (payload : String)
  | ready (syncThrows : Bool)
deriving DecidableEq, Repr

/-- Dispatch one event to its handler. -/
def stepEvent : WEvent → WbotState → WbotState
  | WEvent.qr p, st => onQr st p
  | WEvent.ready b, st => onReady b st

/-- Run a sequence of `qr`/`ready` events in order. -/
def runEvents : List WEvent → WbotState → WbotState
  | [], st => st
  | e :: es, st => runEvents es (stepEvent e st)

/-- A concrete account record, used to instantiate the theorems below. -/
def sampleWhatsapp : WhatsappRec :=
  { id := 7, name := "acme", session := "", status := "OPENING",
    qrcode := "", retries := 0 }

/-- A concrete pre-event state: empty registry, untagged handle, nothing
emitted, promise pending, no timer set. -/
def sampleState : WbotState :=
  { whatsapp := sampleWhatsapp, sessions := [], wbot := { handle := 3 },
    emits := [], resolved := none, rejected := none, scheduled := [] }

/-- The same state with the account's persisted retry counter at 5. -/
def sampleStateRetries5 : WbotState :=
  { sampleState with whatsapp := { sampleWhatsapp with retries := 5 } }

/-! ### Helper lemmas -/

/-- When every attempt fails, `initializeWithRetry` makes
`maxRetries - retries + 1` attempts, suspends `maxRetries - retries`
times, and surfaces the final attempt's error. -/
theorem initializeWithRetry_allFail (connect : Nat → Except String Unit)
    (err : Nat → String) (hfail : ∀ k, connect k = Except.error (err k)) :
    ∀ (d maxRetries retries : Nat), retries ≤ maxRetries →
      maxRetries - retries = d →
      initializeWithRetry connect maxRetries retries =
        { attempts := d + 1, waits := d,
          outcome := Except.error (err maxRetries) } := by
  intro d
  induction d with
  | zero =>
    intro maxRetries retries hle hd
    have heq : retries = maxRetries := by omega
    subst heq
    rw [initializeWithRetry, hfail retries]
    simp
  | succ d ih =>
    intro maxRetries retries hle hd
    have hlt : retries < maxRetries := by omega
    rw [initializeWithRetry, hfail retries]
    simp only [dif_pos hlt]
    rw [ih maxRetries (retries + 1) (by omega) (by omega)]

/-- An absent `findIndex` means no entry carries the id. -/
theorem findSessionIdx_none_countId (sessions : List Session)
    (whatsappId : Nat) (h : findSessionIdx sessions whatsappId = none) :
    countId sessions whatsappId = 0 := by
  rw [countId, List.countP_eq_zero]
  intro a ha
  simpa using (List.findIdx?_eq_none_iff.mp h) a ha

/-- A present `findIndex` means at least one entry carries the id. -/
theorem findSessionIdx_some_countId (sessions : List Session)
    (whatsappId i : Nat) (h : findSessionIdx sessions whatsappId = some i) :
    0 < countId sessions whatsappId := by
  rcases Nat.eq_zero_or_pos (countId sessions whatsappId) with h0 | h0
  · exfalso
    rw [countId, List.countP_eq_zero] at h0
    have hnone : findSessionIdx sessions whatsappId = none := by
      rw [findSessionIdx, List.findIdx?_eq_none_iff]
      intro x hx
      simpa using h0 x hx
    rw [hnone] at h
    exact Option.noConfusion h
  · exact h0

/-- After a registration step on a registry holding at most one entry for
the id, the registry holds exactly one entry for the id. -/
theorem registerIfAbsent_countId (sessions : List Session) (wbot : Session)
    (whatsappId : Nat) (h : countId sessions whatsappId ≤ 1) :
    countId (registerIfAbsent sessions wbot whatsappId).1 whatsappId = 1 := by
  cases hfind : findSessionIdx sessions whatsappId with
  | none =>
    have h0 := findSessionIdx_none_countId sessions whatsappId hfind
    simp only [registerIfAbsent, hfind]
    simp only [countId] at h0 ⊢
    simp [List.countP_append, h0, List.countP_cons]
  | some i =>
    have h1 := findSessionIdx_some_countId sessions whatsappId i hfind
    simp only [registerIfAbsent, hfind]
    omega

/-- Event handlers never change the account's identity. -/
theorem stepEvent_whatsapp_id (e : WEvent) (st : WbotState) :
    (stepEvent e st).whatsapp.id = st.whatsapp.id := by
  cases e with
  | qr p =>
    simp only [stepEvent, onQr]
  | ready b =>
    simp only [stepEvent, onReady]
    cases b <;> simp

/-- One `qr` or `ready` event leaves exactly one registry entry for the
account, starting from at most one. -/
theorem stepEvent_countId (e : WEvent) (st : WbotState)
    (h : countId st.sessions st.whatsapp.id ≤ 1) :
    countId (stepEvent e st).sessions st.whatsapp.id = 1 := by
  cases e with
  | qr p =>
    simp only [stepEvent, onQr]
    exact registerIfAbsent_countId st.sessions st.wbot st.whatsapp.id h
  | ready b =>
    simp only [stepEvent, onReady]
    cases b <;>
      simpa using registerIfAbsent_countId st.sessions st.wbot st.whatsapp.id h

/-- When every attempt fails, `destroyClient` still returns normally:
the internal try/catch swallows the `destroy()` error. -/
theorem destroyClient_ok (d : Except String Unit) :
    destroyClient d = Except.ok () := by
  cases d <;> rfl

/-- Erasing the element at the first index satisfying `p` lowers the
`countP` by one. -/
theorem countP_eraseIdx_of_findIdx? {α : Type} (p : α → Bool) :
    ∀ (l : List α) (i : Nat), l.findIdx? p = some i →
      (l.eraseIdx i).countP p = l.countP p - 1 := by
  intro l
  induction l with
  | nil => intro i h; simp [List.findIdx?] at h
  | cons a t ih =>
    intro i h
    rw [List.findIdx?_cons] at h
    by_cases hpa : p a
    · rw [if_pos hpa] at h
      obtain rfl : i = 0 := by simpa using h.symm
      simp [List.eraseIdx_cons_zero, List.countP_cons, hpa]
    · rw [if_neg hpa, List.findIdx?_succ] at h
      cases hft : t.findIdx? p with
      | none => rw [hft] at h; simp at h
      | some j =>
        rw [hft] at h
        obtain rfl : i = j + 1 := by simpa using h.symm
        rw [List.eraseIdx_cons_succ]
        simp [List.countP_cons, hpa, ih j hft]

/-- A registration step always leaves at least one entry for the id. -/
theorem registerIfAbsent_countId_pos (sessions : List Session)
    (wbot : Session) (whatsappId : Nat) :
    0 < countId (registerIfAbsent sessions wbot whatsappId).1 whatsappId := by
  cases hfind : findSessionIdx sessions whatsappId with
  | none =>
    simp only [registerIfAbsent, hfind]
    simp [countId, List.countP_append, List.countP_cons]
  | some i =>
    simp only [registerIfAbsent, hfind]
    exact findSessionIdx_some_countId sessions whatsappId i hfind

/-! ### Claim theorems -/

/-- C1: registration on a `qr` or `ready` event is register-if-absent, so
any nonempty sequence of repeated `qr`/`ready` events for the same account
identity, starting from a registry holding at most one entry for it,
leaves exactly one registry entry for that identity — never a duplicate,
never a replacement. -/
theorem registry_at_most_one_per_identity (st : WbotState)
    (evs : List WEvent) (h1 : countId st.sessions st.whatsapp.id ≤ 1)
    (h2 : evs ≠ []) :
    countId (runEvents evs st).sessions st.whatsapp.id = 1 := by
  induction evs generalizing st with
  | nil => exact absurd rfl h2
  | cons e es ih =>
    rw [runEvents]
    have hstep := stepEvent_countId e st h1
    have hid := stepEvent_whatsapp_id e st
    cases es with
    | nil =>
      rw [runEvents]
      exact hstep
    | cons e2 es2 =>
      have hrec := ih (stepEvent e st) (by rw [hid]; omega) (by simp)
      rwa [hid] at hrec

/-- Witness for C1: a concrete `qr` then `ready` run from an empty
registry ends with exactly one entry for account 7. -/
theorem registry_at_most_one_per_identity_witness :
    countId (runEvents [WEvent.qr "a", WEvent.ready false]
      sampleState).sessions sampleState.whatsapp.id = 1 :=
  registry_at_most_one_per_identity sampleState _ (by decide) (by decide)

/-- C2 counterexample: with the code's bound `MAX_RETRIES = 5` and an
always-failing connect, the initializer makes 6 attempts, not 5 — the
initial attempt is not counted against the bound. -/
theorem initializeWithRetry_attempts_ne_max :
    (initializeWithRetry (fun _ => Except.error "fail") 5 0).attempts ≠
      5 := by
  simp [initializeWithRetry]

/-- C2 (amended): for every bound N and every handle whose connect fails
on every call, the initializer makes exactly N + 1 connect attempts (the
initial attempt plus N retries), suspends exactly once between each
consecutive pair of attempts (N suspensions in total), and then surfaces
the failure to the caller. -/
theorem initializeWithRetry_allFail_spec (N : Nat)
    (connect : Nat → Except String Unit) (err : Nat → String)
    (hfail : ∀ k, connect k = Except.error (err k)) :
    (initializeWithRetry connect N 0).attempts = N + 1 ∧
    (initializeWithRetry connect N 0).waits = N ∧
    (initializeWithRetry connect N 0).outcome = Except.error (err N) := by
  rw [initializeWithRetry_allFail connect err hfail N N 0 (by omega)
    (by omega)]
  exact ⟨rfl, rfl, rfl⟩

/-- Witness for C2 (amended): bound 2, always-failing connect — 3
attempts, 2 suspensions, failure surfaced. -/
theorem initializeWithRetry_allFail_spec_witness :
    (initializeWithRetry (fun _ => Except.error "boom") 2 0).attempts =
      2 + 1 ∧
    (initializeWithRetry (fun _ => Except.error "boom") 2 0).waits = 2 ∧
    (initializeWithRetry (fun _ => Except.error "boom") 2 0).outcome =
      Except.error "boom" :=
  initializeWithRetry_allFail_spec 2 (fun _ => Except.error "boom")
    (fun _ => "boom") (fun _ => rfl)

/-- C3: after an `auth_failure` event, when prior retries ≤ 1 the qrcode
and credentials are unchanged and retries is incremented; when prior
retries > 1 the credentials are cleared and retries is reset to 0 before
the increment (ending at 1); in every case status becomes DISCONNECTED. -/
theorem auth_failure_update (st : WbotState) :
    (st.whatsapp.retries ≤ 1 →
      (onAuthFailure st).whatsapp.qrcode = st.whatsapp.qrcode ∧
      (onAuthFailure st).whatsapp.session = st.whatsapp.session ∧
      (onAuthFailure st).whatsapp.retries = st.whatsapp.retries + 1) ∧
    (st.whatsapp.retries > 1 →
      (onAuthFailure st).whatsapp.session = "" ∧
      (onAuthFailure st).whatsapp.retries = 0 + 1) ∧
    (onAuthFailure st).whatsapp.status = "DISCONNECTED" := by
  by_cases h : st.whatsapp.retries > 1
  · refine ⟨fun hle => absurd h (by omega), fun _ => ?_, ?_⟩ <;>
      simp [onAuthFailure, h]
  · refine ⟨fun _ => ?_, fun hgt => absurd hgt h, ?_⟩ <;>
      simp [onAuthFailure, h]

/-- Witness for C3: from prior retries 5 (> 1), credentials are cleared,
retries ends at 1, status is DISCONNECTED. -/
theorem auth_failure_update_witness :
    (onAuthFailure sampleStateRetries5).whatsapp.session = "" ∧
    (onAuthFailure sampleStateRetries5).whatsapp.retries = 0 + 1 ∧
    (onAuthFailure sampleStateRetries5).whatsapp.status =
      "DISCONNECTED" :=
  ⟨((auth_failure_update sampleStateRetries5).2.1 (by decide)).1,
   ((auth_failure_update sampleStateRetries5).2.1 (by decide)).2,
   (auth_failure_update sampleStateRetries5).2.2⟩

/-- C4: after a `ready` event the persisted record has status CONNECTED,
empty qrcode and retries 0, and exactly one notification of shape
`(action, session) = ("update", snapshot)` is emitted. -/
theorem ready_update (syncThrows : Bool) (st : WbotState) :
    (onReady syncThrows st).whatsapp.status = "CONNECTED" ∧
    (onReady syncThrows st).whatsapp.qrcode = "" ∧
    (onReady syncThrows st).whatsapp.retries = 0 ∧
    (onReady syncThrows st).emits = st.emits ++
      [{ action := "update",
         session := (onReady syncThrows st).whatsapp }] := by
  cases syncThrows <;> exact ⟨rfl, rfl, rfl, rfl⟩

/-- C5 counterexample: the `qr` handler persists the literal lowercase
status `"qrcode"`, so the persisted status is not `"QRCODE"`. -/
theorem qr_status_lowercase :
    (onQr sampleState "XYZ").whatsapp.status ≠ "QRCODE" := by decide

/-- C5 (amended): after a `qr` event with payload `p`, the persisted
record has status `"qrcode"` (lowercase literal), qrcode `p` and retries
0; the session is registered under the account's identity when absent and
the registry is untouched when present; the init promise is still
unresolved. -/
theorem qr_update (st : WbotState) (p : String)
    (h : st.resolved = none) :
    (onQr st p).whatsapp.status = "qrcode" ∧
    (onQr st p).whatsapp.qrcode = p ∧
    (onQr st p).whatsapp.retries = 0 ∧
    (findSessionIdx st.sessions st.whatsapp.id = none →
      (onQr st p).sessions =
        st.sessions ++ [{ st.wbot with id := some st.whatsapp.id }]) ∧
    (∀ i, findSessionIdx st.sessions st.whatsapp.id = some i →
      (onQr st p).sessions = st.sessions) ∧
    (onQr st p).resolved = none := by
  refine ⟨rfl, rfl, rfl, ?_, ?_, ?_⟩
  · intro hnone
    simp [onQr, registerIfAbsent, hnone]
  · intro i hsome
    simp [onQr, registerIfAbsent, hsome]
  · simpa [onQr] using h

/-- Witness for C5 (amended): a concrete `qr "XYZ"` event. -/
theorem qr_update_witness :
    (onQr sampleState "XYZ").whatsapp.status = "qrcode" ∧
    (onQr sampleState "XYZ").whatsapp.qrcode = "XYZ" ∧
    (onQr sampleState "XYZ").resolved = none :=
  ⟨(qr_update sampleState "XYZ" (by decide)).1,
   (qr_update sampleState "XYZ" (by decide)).2.1,
   (qr_update sampleState "XYZ" (by decide)).2.2.2.2.2⟩

/-- C6: when a reconnection cycle exhausts its bounded retries, the
account is forced to DISCONNECTED with qrcode cleared, exactly one
notification is emitted, the failed cycle schedules nothing further, and
nothing escapes to a caller. -/
theorem reconnect_exhausted_contained (connect : Nat → Except String Unit)
    (st : WbotState) (e : String)
    (hex : (initializeWithRetry connect MAX_RETRIES 0).outcome =
      Except.error e) :
    (reconnect connect st).finalState.whatsapp.status = "DISCONNECTED" ∧
    (reconnect connect st).finalState.whatsapp.qrcode = "" ∧
    (reconnect connect st).finalState.emits = st.emits ++
      [{ action := "update",
         session := (reconnect connect st).finalState.whatsapp }] ∧
    (reconnect connect st).scheduled = [] ∧
    (reconnect connect st).raised = false := by
  simp [reconnect, hex]

/-- Witness for C6: a concrete always-failing reconnect cycle. -/
theorem reconnect_exhausted_witness :
    (reconnect (fun _ => Except.error "x")
      sampleState).finalState.whatsapp.status = "DISCONNECTED" ∧
    (reconnect (fun _ => Except.error "x")
      sampleState).finalState.whatsapp.qrcode = "" ∧
    (reconnect (fun _ => Except.error "x") sampleState).finalState.emits =
      sampleState.emits ++
        [{ action := "update",
           session := (reconnect (fun _ => Except.error "x")
             sampleState).finalState.whatsapp }] ∧
    (reconnect (fun _ => Except.error "x") sampleState).scheduled = [] ∧
    (reconnect (fun _ => Except.error "x") sampleState).raised = false :=
  reconnect_exhausted_contained (fun _ => Except.error "x") sampleState "x"
    (by simp [initializeWithRetry, MAX_RETRIES])

/-- C7: `getWbot` on an identity absent from the registry fails with the
not-initialized error; on a present identity it returns a registered
session carrying that identity. -/
theorem getWbot_lookup (sessions : List Session) (whatsappId : Nat) :
    ((∀ s ∈ sessions, s.id ≠ some whatsappId) →
      getWbot sessions whatsappId =
        Except.error "ERR_WAPP_NOT_INITIALIZED") ∧
    ((∃ s ∈ sessions, s.id = some whatsappId) →
      ∃ s, getWbot sessions whatsappId = Except.ok s ∧ s ∈ sessions ∧
        s.id = some whatsappId) := by
  constructor
  · intro habs
    rw [getWbot]
    have hnone : sessions.find? (fun s => s.id == some whatsappId) =
        none := by
      rw [List.find?_eq_none]
      intro x hx
      simpa using habs x hx
    rw [hnone]
  · intro hex
    obtain ⟨s, hs, hid⟩ := hex
    have hsome : (sessions.find?
        (fun s => s.id == some whatsappId)).isSome := by
      rw [List.find?_isSome]
      exact ⟨s, hs, by simpa using hid⟩
    obtain ⟨t, ht⟩ := Option.isSome_iff_exists.mp hsome
    refine ⟨t, ?_, List.mem_of_find?_eq_some ht,
      by simpa using List.find?_some ht⟩
    rw [getWbot, ht]

/-- Witness for C7: an empty registry misses id 9; a singleton registry
serves id 7. -/
theorem getWbot_lookup_witness :
    getWbot [] 9 = Except.error "ERR_WAPP_NOT_INITIALIZED" ∧
    ∃ s, getWbot [{ handle := 3, id := some 7 }] 7 = Except.ok s ∧
      s ∈ [({ handle := 3, id := some 7 } : Session)] ∧
      s.id = some 7 :=
  ⟨(getWbot_lookup [] 9).1 (by simp),
   (getWbot_lookup [{ handle := 3, id := some 7 }] 7).2
     ⟨{ handle := 3, id := some 7 }, by simp, rfl⟩⟩

/-- C8: `removeWbot` always returns normally, whatever the underlying
destroy outcome; on an absent identity it changes nothing, and on a
present identity (at most one entry) it removes the entry. -/
theorem removeWbot_spec (destroyResult : Except String Unit)
    (sessions : List Session) (whatsappId : Nat) :
    (∃ l, removeWbot destroyResult sessions whatsappId = Except.ok l) ∧
    (findSessionIdx sessions whatsappId = none →
      removeWbot destroyResult sessions whatsappId =
        Except.ok sessions) ∧
    (countId sessions whatsappId ≤ 1 →
      ∀ l, removeWbot destroyResult sessions whatsappId = Except.ok l →
        countId l whatsappId = 0) := by
  refine ⟨?_, ?_, ?_⟩
  · cases hfind : findSessionIdx sessions whatsappId with
    | none => exact ⟨sessions, by simp [removeWbot, hfind]⟩
    | some i =>
      exact ⟨sessions.eraseIdx i,
        by simp [removeWbot, hfind, destroyClient_ok]⟩
  · intro hnone
    simp [removeWbot, hnone]
  · intro hle l hl
    cases hfind : findSessionIdx sessions whatsappId with
    | none =>
      simp [removeWbot, hfind] at hl
      subst hl
      exact findSessionIdx_none_countId sessions whatsappId hfind
    | some i =>
      simp [removeWbot, hfind, destroyClient_ok] at hl
      subst hl
      have hpos := findSessionIdx_some_countId sessions whatsappId i hfind
      have hfind2 : List.findIdx? (fun s => s.id == some whatsappId)
          sessions = some i := hfind
      have herase := countP_eraseIdx_of_findIdx?
        (fun s => s.id == some whatsappId) sessions i hfind2
      simp only [countId] at hpos hle ⊢
      omega

/-- Witness for C8: removal of an absent id is a no-op; removal of a
present id with a failing destroy still empties the registry. -/
theorem removeWbot_spec_witness :
    removeWbot (Except.error "boom") [] 9 = Except.ok [] ∧
    countId ([] : List Session) 7 = 0 :=
  ⟨(removeWbot_spec (Except.error "boom") [] 9).2.1 (by decide),
   (removeWbot_spec (Except.error "boom")
     [{ handle := 3, id := some 7 }] 7).2.2 (by decide) [] rfl⟩

/-- C9 counterexample: the reconnection cycle invokes the bounded connect
sequence on the very handle object it just destroyed — the connect handle
equals the destroyed handle, so no fresh handle is constructed. -/
theorem reconnect_reuses_destroyed_handle :
    (reconnect (fun _ => Except.error "e") sampleState).connectHandle =
      (reconnect (fun _ => Except.error "e")
        sampleState).destroyedHandle := rfl

/-- C9 (amended): every `disconnected` or `auth_failure` transition
schedules exactly one reconnection cycle after the fixed delay, and that
cycle destroys the current handle and then attempts the bounded connect
sequence on the same handle object bound to the same account. -/
theorem disconnect_schedules_one_reconnect (st : WbotState)
    (connect : Nat → Except String Unit) :
    (onDisconnected st).scheduled =
      st.scheduled ++ [RECONNECT_INTERVAL] ∧
    (onAuthFailure st).scheduled =
      st.scheduled ++ [RECONNECT_INTERVAL] ∧
    (reconnect connect st).destroyedHandle = st.wbot.handle ∧
    (reconnect connect st).connectHandle = st.wbot.handle :=
  ⟨rfl, rfl, rfl, rfl⟩

/-- C10 counterexample: after a first `ready` whose sync throws, a
subsequent successful `ready` event resolves the pending init promise, so
the promise does not stay unsettled forever. -/
theorem sync_throw_promise_settles_later :
    (runEvents [WEvent.ready true, WEvent.ready false]
      sampleState).resolved ≠ none := by decide

/-- C10 (amended): when the unread-history sync inside a `ready` handler
throws and the init promise is still pending, the handler neither
resolves nor rejects it — even though the persisted status is already
CONNECTED and the session is already registered. -/
theorem ready_sync_throw_leaves_promise_pending (st : WbotState)
    (h1 : st.resolved = none) (h2 : st.rejected = none) :
    (onReady true st).resolved = none ∧
    (onReady true st).rejected = none ∧
    (onReady true st).whatsapp.status = "CONNECTED" ∧
    0 < countId (onReady true st).sessions st.whatsapp.id := by
  refine ⟨by simpa [onReady] using h1, by simpa [onReady] using h2,
    rfl, ?_⟩
  simpa [onReady] using
    registerIfAbsent_countId_pos st.sessions st.wbot st.whatsapp.id

/-- Witness for C10 (amended): a concrete throwing-sync `ready` event on
a pending-promise state. -/
theorem ready_sync_throw_witness :
    (onReady true sampleState).resolved = none ∧
    (onReady true sampleState).rejected = none ∧
    (onReady true sampleState).whatsapp.status = "CONNECTED" ∧
    0 < countId (onReady true sampleState).sessions
      sampleState.whatsapp.id :=
  ready_sync_throw_leaves_promise_pending sampleState (by decide)
    (by decide)
